import Mathlib

/-!
Shallow embedding of the `msg_rng` crate (`src/lib.rs`): the seeded global
RNG resource `GlobalRng`, the per-entity RNG component `EntityRng`, the
`hash_combine` seed mixer, and the sampling surface the crate exposes.

The crate delegates raw uniform generation to the external `rand` library
(`StdRng`).  Every `StdRng` the crate creates is built with
`StdRng::seed_from_u64`, and is only ever mutated by drawing from it, so a
state is faithfully represented by the pair (initializing 64-bit seed,
number of draws made so far).  The library's output word stream is outside
the crate (the spec treats the PRNG primitives as an external collaborator),
so it is an explicit parameter `W : Nat → Nat → Nat`, where `W s i` is the
i-th 64-bit word drawn from `StdRng::seed_from_u64 s`; theorems below hold
for every word stream.  Each sampling method consumes words through
`stdDraw` and maps them to its output type by a fixed function, mirroring
how the crate's methods each delegate to one `rand` sampling call.
Thread-local entropy (`rand::random()`) is modelled as an explicit
argument to the constructors that consume it.
-/

/-- State of `rand::rngs::StdRng` as used by this crate: the `u64` seed it
was built from via `seed_from_u64`, and how many draws have been made. -/
structure StdRng where
  seed : Nat
  idx : Nat
deriving DecidableEq, Repr

/-- `StdRng::seed_from_u64`. -/
def stdFromSeed (s : Nat) : StdRng := ⟨s % 2 ^ 64, 0⟩

/-- Draw the next 64-bit word from a `StdRng` (one call into the `rand`
library), for word stream `W`. -/
def stdDraw (W : Nat → Nat → Nat) (r : StdRng) : Nat × StdRng :=
  (W r.seed r.idx % 2 ^ 64, ⟨r.seed, r.idx + 1⟩)

/-- The unit-interval `f64` value `rand` derives from a 64-bit word
(53 significant bits), as an exact rational: a value in [0, 1). -/
def unitF64 (w : Nat) : ℚ := (((w >>> 11 : Nat) : ℚ)) / 2 ^ 53

/-- The unit-interval `f32` value `rand` derives from a word
(24 significant bits), as an exact rational: a value in [0, 1). -/
def unitF32 (w : Nat) : ℚ := ((((w % 2 ^ 32) >>> 8 : Nat) : ℚ)) / 2 ^ 24

/-- Reinterpret the low 32 bits of a word as a two's-complement `i32`. -/
def i32FromWord (w : Nat) : Int :=
  if w % 2 ^ 32 < 2 ^ 31 then ((w % 2 ^ 32 : Nat) : Int)
  else ((w % 2 ^ 32 : Nat) : Int) - 2 ^ 32

/-- Reinterpret a 64-bit word as a two's-complement `i64`. -/
def i64FromWord (w : Nat) : Int :=
  if w % 2 ^ 64 < 2 ^ 63 then ((w % 2 ^ 64 : Nat) : Int)
  else ((w % 2 ^ 64 : Nat) : Int) - 2 ^ 64

/-- `hash_combine` from `src/lib.rs`: `h = a; h ^= b;
h = h.wrapping_mul(0x517c_c1b7_2722_0a95); h ^= h >> 32; h`. -/
def hash_combine (a b : Nat) : Nat :=
  let h0 := a ^^^ b
  let h1 := h0 * 0x517cc1b727220a95 % 2 ^ 64
  h1 ^^^ (h1 >>> 32)

/-- The Seed-Mixing Function as the specification words it: XOR the two
inputs, multiply by the odd constant `0x517c_c1b7_2722_0a95` wrapping
modulo 2^64, then XOR the product with its own upper 32 bits shifted
down (division by 2^32). -/
def mixSpec (a b : Nat) : Nat :=
  let x := a ^^^ b
  let p := x * 0x517cc1b727220a95 % 2 ^ 64
  p ^^^ (p / 2 ^ 32)

/-- `GlobalRng`: the crate's global resource, holding a `StdRng` and the
retained seed that initialized it. -/
structure GlobalRng where
  rng : StdRng
  seed : Nat
deriving DecidableEq, Repr

/-- `GlobalRng::seeded(seed)`. -/
def GlobalRng.seeded (s : Nat) : GlobalRng := ⟨stdFromSeed s, s⟩

/-- `GlobalRng::random()`; `entropy` is the `u64` drawn from the external
entropy source `rand::random()`. -/
def GlobalRng.random (entropy : Nat) : GlobalRng := ⟨stdFromSeed entropy, entropy⟩

/-- `GlobalRng::reset()`. -/
def GlobalRng.reset (g : GlobalRng) : GlobalRng := { g with rng := stdFromSeed g.seed }

/-- `GlobalRng::reseed(seed)`. -/
def GlobalRng.reseed (_g : GlobalRng) (s : Nat) : GlobalRng := ⟨stdFromSeed s, s⟩

/-- `GlobalRng::fork()`: draws one `u64` from the live state and seeds a
new `StdRng` from it directly. -/
def GlobalRng.fork (W : Nat → Nat → Nat) (g : GlobalRng) : StdRng × GlobalRng :=
  let p := stdDraw W g.rng
  (stdFromSeed p.1, { g with rng := p.2 })

/-- `GlobalRng::fork_stream(stream)`: draws a base `u64`, wrapping-adds the
`u32` stream id widened to `u64`, and seeds a new `StdRng` from it. -/
def GlobalRng.fork_stream (W : Nat → Nat → Nat) (g : GlobalRng) (stream : Nat) :
    StdRng × GlobalRng :=
  let p := stdDraw W g.rng
  (stdFromSeed ((p.1 + stream % 2 ^ 32) % 2 ^ 64), { g with rng := p.2 })

/-- `GlobalRng::range(lo..hi)` on naturals: one uniform draw mapped into
the (caller-guaranteed nonempty) range. -/
def GlobalRng.range (W : Nat → Nat → Nat) (g : GlobalRng) (lo hi : Nat) :
    Nat × GlobalRng :=
  let p := stdDraw W g.rng
  (lo + p.1 % (hi - lo), { g with rng := p.2 })

/-- `GlobalRng::f32()`. -/
def GlobalRng.f32 (W : Nat → Nat → Nat) (g : GlobalRng) : ℚ × GlobalRng :=
  let p := stdDraw W g.rng
  (unitF32 p.1, { g with rng := p.2 })

/-- `GlobalRng::f64()`. -/
def GlobalRng.f64 (W : Nat → Nat → Nat) (g : GlobalRng) : ℚ × GlobalRng :=
  let p := stdDraw W g.rng
  (unitF64 p.1, { g with rng := p.2 })

/-- `GlobalRng::bool()`. -/
def GlobalRng.bool (W : Nat → Nat → Nat) (g : GlobalRng) : Bool × GlobalRng :=
  let p := stdDraw W g.rng
  (decide (p.1 % 2 = 1), { g with rng := p.2 })

/-- `GlobalRng::chance(probability)`: draws a uniform `f64` in [0, 1) and
compares it strictly against the probability. -/
def GlobalRng.chance (W : Nat → Nat → Nat) (g : GlobalRng) (p : ℚ) :
    Bool × GlobalRng :=
  let q := stdDraw W g.rng
  (decide (unitF64 q.1 < p), { g with rng := q.2 })

/-- `GlobalRng::choose(slice)`: `None` (no draw) on an empty slice, else
one uniform index draw. -/
def GlobalRng.choose (W : Nat → Nat → Nat) (g : GlobalRng) (items : List Nat) :
    Option Nat × GlobalRng :=
  if items.isEmpty then (none, g)
  else
    let p := stdDraw W g.rng
    (items[p.1 % items.length]?, { g with rng := p.2 })

/-- `GlobalRng::choose_index(slice)`: `None` (no draw) on an empty slice,
else one uniform index draw, returning the index. -/
def GlobalRng.choose_index (W : Nat → Nat → Nat) (g : GlobalRng) (items : List Nat) :
    Option Nat × GlobalRng :=
  if items.isEmpty then (none, g)
  else
    let p := stdDraw W g.rng
    (some (p.1 % items.length), { g with rng := p.2 })

/-- Swap two positions of a list (helper for Fisher–Yates). -/
def listSwap (l : List Nat) (i j : Nat) : List Nat :=
  match l[i]?, l[j]? with
  | some a, some b => (l.set i b).set j a
  | _, _ => l

/-- Fisher–Yates walk used by `rand`'s `SliceRandom::shuffle`: the
remaining swap position counts down to 0, one draw per position. -/
def fyAux (W : Nat → Nat → Nat) : StdRng → List Nat → Nat → List Nat × StdRng
  | r, l, 0 => (l, r)
  | r, l, k + 1 =>
    let p := stdDraw W r
    fyAux W p.2 (listSwap l (k + 1) (p.1 % (k + 2))) k

/-- `GlobalRng::shuffle(slice)`. -/
def GlobalRng.shuffle (W : Nat → Nat → Nat) (g : GlobalRng) (items : List Nat) :
    List Nat × GlobalRng :=
  let p := fyAux W g.rng items (items.length - 1)
  (p.1, { g with rng := p.2 })

/-- `GlobalRng::u32()`. -/
def GlobalRng.u32 (W : Nat → Nat → Nat) (g : GlobalRng) : Nat × GlobalRng :=
  let p := stdDraw W g.rng
  (p.1 % 2 ^ 32, { g with rng := p.2 })

/-- `GlobalRng::u64()`. -/
def GlobalRng.u64 (W : Nat → Nat → Nat) (g : GlobalRng) : Nat × GlobalRng :=
  let p := stdDraw W g.rng
  (p.1, { g with rng := p.2 })

/-- `GlobalRng::i32()`. -/
def GlobalRng.i32 (W : Nat → Nat → Nat) (g : GlobalRng) : Int × GlobalRng :=
  let p := stdDraw W g.rng
  (i32FromWord p.1, { g with rng := p.2 })

/-- `GlobalRng::i64()`. -/
def GlobalRng.i64 (W : Nat → Nat → Nat) (g : GlobalRng) : Int × GlobalRng :=
  let p := stdDraw W g.rng
  (i64FromWord p.1, { g with rng := p.2 })

/-- One sampling operation of the `GlobalRng` surface. -/
inductive Op where
  | range (lo hi : Nat)
  | f32
  | f64
  | bool
  | chance (p : ℚ)
  | choose (items : List Nat)
  | chooseIdx (items : List Nat)
  | shuffle (items : List Nat)
  | u32
  | u64
  | i32
  | i64
deriving DecidableEq

/-- An observed output of a sampling operation. -/
inductive Val where
  | nat (n : Nat)
  | int (i : Int)
  | bool (b : Bool)
  | rat (q : ℚ)
  | onat (o : Option Nat)
  | list (l : List Nat)
deriving DecidableEq

/-- Run one `GlobalRng` sampling operation. -/
def GlobalRng.runOp (W : Nat → Nat → Nat) (op : Op) (g : GlobalRng) :
    Val × GlobalRng :=
  match op with
  | .range lo hi => let p := GlobalRng.range W g lo hi; (Val.nat p.1, p.2)
  | .f32 => let p := GlobalRng.f32 W g; (Val.rat p.1, p.2)
  | .f64 => let p := GlobalRng.f64 W g; (Val.rat p.1, p.2)
  | .bool => let p := GlobalRng.bool W g; (Val.bool p.1, p.2)
  | .chance q => let p := GlobalRng.chance W g q; (Val.bool p.1, p.2)
  | .choose items => let p := GlobalRng.choose W g items; (Val.onat p.1, p.2)
  | .chooseIdx items => let p := GlobalRng.choose_index W g items; (Val.onat p.1, p.2)
  | .shuffle items => let p := GlobalRng.shuffle W g items; (Val.list p.1, p.2)
  | .u32 => let p := GlobalRng.u32 W g; (Val.nat p.1, p.2)
  | .u64 => let p := GlobalRng.u64 W g; (Val.nat p.1, p.2)
  | .i32 => let p := GlobalRng.i32 W g; (Val.int p.1, p.2)
  | .i64 => let p := GlobalRng.i64 W g; (Val.int p.1, p.2)

/-- Run a sequence of `GlobalRng` sampling operations, collecting outputs. -/
def GlobalRng.runOps (W : Nat → Nat → Nat) (ops : List Op) (g : GlobalRng) :
    List Val × GlobalRng :=
  match ops with
  | [] => ([], g)
  | op :: rest =>
    let p := GlobalRng.runOp W op g
    let q := GlobalRng.runOps W rest p.2
    (p.1 :: q.1, q.2)

/-- `EntityRng`: the crate's per-entity component, same shape as
`GlobalRng`. -/
structure EntityRng where
  rng : StdRng
  seed : Nat
deriving DecidableEq, Repr

/-- `EntityRng::seeded(seed)`. -/
def EntityRng.seeded (s : Nat) : EntityRng := ⟨stdFromSeed s, s⟩

/-- `EntityRng::random()`; `entropy` is the `u64` drawn from
`rand::random()`. -/
def EntityRng.random (entropy : Nat) : EntityRng := ⟨stdFromSeed entropy, entropy⟩

/-- `EntityRng::from_global(&global)`: as written in the source, it reads
only the immutable borrow's retained seed and mixes it with a fresh `u64`
from the thread-local `rand::random::<u64>()` (modelled as the explicit
`entropy` argument); the source generator's `StdRng` is not touched. -/
def EntityRng.from_global (global : GlobalRng) (entropy : Nat) : EntityRng :=
  let s := hash_combine global.seed (entropy % 2 ^ 64)
  ⟨stdFromSeed s, s⟩

/-- `EntityRng::from_global_and_id(global_seed, entity_index)`: mixes the
global seed with the `u32` entity index widened to `u64`. -/
def EntityRng.from_global_and_id (global_seed : Nat) (entity_index : Nat) : EntityRng :=
  let s := hash_combine global_seed (entity_index % 2 ^ 32)
  ⟨stdFromSeed s, s⟩

/-- `EntityRng::reset()`. -/
def EntityRng.reset (e : EntityRng) : EntityRng := { e with rng := stdFromSeed e.seed }

/-- `EntityRng::range(lo..hi)` on naturals. -/
def EntityRng.range (W : Nat → Nat → Nat) (e : EntityRng) (lo hi : Nat) :
    Nat × EntityRng :=
  let p := stdDraw W e.rng
  (lo + p.1 % (hi - lo), { e with rng := p.2 })

/-- `EntityRng::f32()`. -/
def EntityRng.f32 (W : Nat → Nat → Nat) (e : EntityRng) : ℚ × EntityRng :=
  let p := stdDraw W e.rng
  (unitF32 p.1, { e with rng := p.2 })

/-- `EntityRng::f64()`. -/
def EntityRng.f64 (W : Nat → Nat → Nat) (e : EntityRng) : ℚ × EntityRng :=
  let p := stdDraw W e.rng
  (unitF64 p.1, { e with rng := p.2 })

/-- `EntityRng::bool()`. -/
def EntityRng.bool (W : Nat → Nat → Nat) (e : EntityRng) : Bool × EntityRng :=
  let p := stdDraw W e.rng
  (decide (p.1 % 2 = 1), { e with rng := p.2 })

/-- `EntityRng::chance(probability)`. -/
def EntityRng.chance (W : Nat → Nat → Nat) (e : EntityRng) (p : ℚ) :
    Bool × EntityRng :=
  let q := stdDraw W e.rng
  (decide (unitF64 q.1 < p), { e with rng := q.2 })

/-- `EntityRng::choose(slice)`. -/
def EntityRng.choose (W : Nat → Nat → Nat) (e : EntityRng) (items : List Nat) :
    Option Nat × EntityRng :=
  if items.isEmpty then (none, e)
  else
    let p := stdDraw W e.rng
    (items[p.1 % items.length]?, { e with rng := p.2 })

/-- `EntityRng::shuffle(slice)`. -/
def EntityRng.shuffle (W : Nat → Nat → Nat) (e : EntityRng) (items : List Nat) :
    List Nat × EntityRng :=
  let p := fyAux W e.rng items (items.length - 1)
  (p.1, { e with rng := p.2 })

/-- `EntityRng::random_value::<u64>()`. -/
def EntityRng.randomU64 (W : Nat → Nat → Nat) (e : EntityRng) : Nat × EntityRng :=
  let p := stdDraw W e.rng
  (p.1, { e with rng := p.2 })

/-- One sampling operation of the `EntityRng` surface. -/
inductive EOp where
  | range (lo hi : Nat)
  | f32
  | f64
  | bool
  | chance (p : ℚ)
  | choose (items : List Nat)
  | shuffle (items : List Nat)
  | randU64
deriving DecidableEq

/-- Run one `EntityRng` sampling operation. -/
def EntityRng.runOp (W : Nat → Nat → Nat) (op : EOp) (e : EntityRng) :
    Val × EntityRng :=
  match op with
  | .range lo hi => let p := EntityRng.range W e lo hi; (Val.nat p.1, p.2)
  | .f32 => let p := EntityRng.f32 W e; (Val.rat p.1, p.2)
  | .f64 => let p := EntityRng.f64 W e; (Val.rat p.1, p.2)
  | .bool => let p := EntityRng.bool W e; (Val.bool p.1, p.2)
  | .chance q => let p := EntityRng.chance W e q; (Val.bool p.1, p.2)
  | .choose items => let p := EntityRng.choose W e items; (Val.onat p.1, p.2)
  | .shuffle items => let p := EntityRng.shuffle W e items; (Val.list p.1, p.2)
  | .randU64 => let p := EntityRng.randomU64 W e; (Val.nat p.1, p.2)

/-- Run a sequence of `EntityRng` sampling operations. -/
def EntityRng.runOps (W : Nat → Nat → Nat) (ops : List EOp) (e : EntityRng) :
    List Val × EntityRng :=
  match ops with
  | [] => ([], e)
  | op :: rest =>
    let p := EntityRng.runOp W op e
    let q := EntityRng.runOps W rest p.2
    (p.1 :: q.1, q.2)

/-- A concrete word stream used to evaluate witnesses. -/
def wsEx : Nat → Nat → Nat := fun s i => (s * 6364136223846793005 + i * 1442695040888963407 + 17) % 2 ^ 64

theorem GlobalRng.runOp_seed (W : Nat → Nat → Nat) (op : Op) (g : GlobalRng) :
    ((GlobalRng.runOp W op g).2).seed = g.seed := by
  cases op <;> try rfl
  · show ((GlobalRng.choose W g _).2).seed = g.seed
    unfold GlobalRng.choose
    split <;> rfl
  · show ((GlobalRng.choose_index W g _).2).seed = g.seed
    unfold GlobalRng.choose_index
    split <;> rfl

theorem GlobalRng.runOps_seed (W : Nat → Nat → Nat) (ops : List Op) (g : GlobalRng) :
    ((GlobalRng.runOps W ops g).2).seed = g.seed := by
  induction ops generalizing g with
  | nil => rfl
  | cons op rest ih =>
    show ((GlobalRng.runOps W rest (GlobalRng.runOp W op g).2).2).seed = g.seed
    rw [ih]
    exact GlobalRng.runOp_seed W op g

theorem EntityRng.runOpSeedE (W : Nat → Nat → Nat) (op : EOp) (e : EntityRng) :
    ((EntityRng.runOp W op e).2).seed = e.seed := by
  cases op <;> try rfl
  show ((EntityRng.choose W e _).2).seed = e.seed
  unfold EntityRng.choose
  split <;> rfl

theorem EntityRng.runOpsSeedE (W : Nat → Nat → Nat) (ops : List EOp) (e : EntityRng) :
    ((EntityRng.runOps W ops e).2).seed = e.seed := by
  induction ops generalizing e with
  | nil => rfl
  | cons op rest ih =>
    show ((EntityRng.runOps W rest (EntityRng.runOp W op e).2).2).seed = e.seed
    rw [ih]
    exact EntityRng.runOpSeedE W op e

theorem unitF64_nonneg (w : Nat) : 0 ≤ unitF64 w := by
  unfold unitF64
  positivity

theorem unitF64_lt_one (w : Nat) (h : w < 2 ^ 64) : unitF64 w < 1 := by
  have h2 : (w >>> 11 : Nat) < 2 ^ 53 := by
    rw [Nat.shiftRight_eq_div_pow, Nat.div_lt_iff_lt_mul (by positivity)]
    calc w < 2 ^ 64 := h
    _ = 2 ^ 53 * 2 ^ 11 := by norm_num
  unfold unitF64
  rw [div_lt_one (by positivity)]
  exact_mod_cast h2

theorem hash_combine_diag (x : Nat) : hash_combine x x = 0 := by
  unfold hash_combine
  rw [Nat.xor_self]
  norm_num

/-- C1: evaluating `EntityRng::from_global` as written in the source: the
derived seed mixes the source's retained seed with the external
thread-local entropy word, and the result is entirely independent of the
source's live `StdRng` state — the source's PRNG is neither read (beyond
the retained seed) nor advanced, so no draw is consumed from the source's
sequence. -/
theorem c1_from_global_ignores_source_state (g : GlobalRng) (r : StdRng) (e : Nat) :
    (EntityRng.from_global g e).seed = hash_combine g.seed (e % 2 ^ 64) ∧
    EntityRng.from_global { g with rng := r } e = EntityRng.from_global g e :=
  ⟨rfl, rfl⟩

/-- C2: two generators constructed with `seeded(S)` (both `GlobalRng` and
`EntityRng`) and subjected to the same sequence of sampling operations
produce identical output sequences and identical final states, for every
word stream of the underlying PRNG library. -/
theorem c2_seeded_determinism (W : Nat → Nat → Nat) (S : Nat) (O : List Op)
    (OE : List EOp) (g1 g2 : GlobalRng) (e1 e2 : EntityRng)
    (hg1 : g1 = GlobalRng.seeded S) (hg2 : g2 = GlobalRng.seeded S)
    (he1 : e1 = EntityRng.seeded S) (he2 : e2 = EntityRng.seeded S) :
    GlobalRng.runOps W O g1 = GlobalRng.runOps W O g2 ∧
    EntityRng.runOps W OE e1 = EntityRng.runOps W OE e2 := by
  subst hg1 hg2 he1 he2
  exact ⟨rfl, rfl⟩

theorem c2_seeded_determinism_witness :
    GlobalRng.runOps wsEx [Op.u64, Op.bool, Op.chance (1 / 2)] (GlobalRng.seeded 42) =
      GlobalRng.runOps wsEx [Op.u64, Op.bool, Op.chance (1 / 2)] (GlobalRng.seeded 42) ∧
    EntityRng.runOps wsEx [EOp.f64, EOp.randU64] (EntityRng.seeded 42) =
      EntityRng.runOps wsEx [EOp.f64, EOp.randU64] (EntityRng.seeded 42) :=
  c2_seeded_determinism wsEx 42 [Op.u64, Op.bool, Op.chance (1 / 2)]
    [EOp.f64, EOp.randU64] _ _ _ _ rfl rfl rfl rfl

/-- C3: `fork()` draws exactly one `u64` from the calling generator's live
state (advancing it by exactly that one draw, retained seed untouched) and
seeds the child from the drawn value directly, with no mixing; and the
parent value drawn right after a fork equals the value a fresh generator
with the same seed produces after discarding one draw of the same kind and
then one `u64` draw. -/
theorem c3_fork_raw_and_parent_alignment (W : Nat → Nat → Nat) (g : GlobalRng)
    (S : Nat) (op1 op2 : Op) :
    (GlobalRng.fork W g).1 = stdFromSeed (stdDraw W g.rng).1 ∧
    (GlobalRng.fork W g).2 = { g with rng := (stdDraw W g.rng).2 } ∧
    (GlobalRng.runOp W op2
        (GlobalRng.fork W (GlobalRng.runOp W op1 (GlobalRng.seeded S)).2).2).1 =
      (GlobalRng.runOp W op2
        (GlobalRng.runOp W Op.u64 (GlobalRng.runOp W op1 (GlobalRng.seeded S)).2).2).1 :=
  ⟨rfl, rfl, rfl⟩

/-- C4: forking a named stream, resetting the parent, and forking the same
stream id again yields two children whose first draws agree (same
discriminator at the same point of the parent's sequence gives the same
child stream). -/
theorem c4_fork_stream_reset_repeat (W : Nat → Nat → Nat) (S id : Nat) :
    stdDraw W (GlobalRng.fork_stream W
        (GlobalRng.reset (GlobalRng.fork_stream W (GlobalRng.seeded S) id).2) id).1 =
      stdDraw W (GlobalRng.fork_stream W (GlobalRng.seeded S) id).1 :=
  rfl

/-- C5: after any sequence of sampling operations, `seed()` still returns
the seed the generator was constructed with, for both the `seeded` and the
`random` construction paths of both generator kinds: draws mutate the PRNG
state but never the retained seed field. -/
theorem c5_seed_stable_under_draws (W : Nat → Nat → Nat) (S ent : Nat)
    (O : List Op) (OE : List EOp) :
    ((GlobalRng.runOps W O (GlobalRng.seeded S)).2).seed = S ∧
    ((GlobalRng.runOps W O (GlobalRng.random ent)).2).seed = ent ∧
    ((EntityRng.runOps W OE (EntityRng.seeded S)).2).seed = S ∧
    ((EntityRng.runOps W OE (EntityRng.random ent)).2).seed = ent :=
  ⟨GlobalRng.runOps_seed W O (GlobalRng.seeded S),
   GlobalRng.runOps_seed W O (GlobalRng.random ent),
   EntityRng.runOpsSeedE W OE (EntityRng.seeded S),
   EntityRng.runOpsSeedE W OE (EntityRng.random ent)⟩

/-- C6: drawing a sequence `O` from a freshly seeded generator, calling
`reset()`, and drawing `O` again reproduces the first run exactly (outputs
and final state), and `reset()` leaves the retained seed unchanged; both
generator kinds. -/
theorem c6_reset_replays (W : Nat → Nat → Nat) (S : Nat) (O : List Op) (OE : List EOp) :
    GlobalRng.runOps W O
        (GlobalRng.reset (GlobalRng.runOps W O (GlobalRng.seeded S)).2) =
      GlobalRng.runOps W O (GlobalRng.seeded S) ∧
    (GlobalRng.reset (GlobalRng.runOps W O (GlobalRng.seeded S)).2).seed = S ∧
    EntityRng.runOps W OE
        (EntityRng.reset (EntityRng.runOps W OE (EntityRng.seeded S)).2) =
      EntityRng.runOps W OE (EntityRng.seeded S) ∧
    (EntityRng.reset (EntityRng.runOps W OE (EntityRng.seeded S)).2).seed = S := by
  have hgs : ((GlobalRng.runOps W O (GlobalRng.seeded S)).2).seed = S :=
    GlobalRng.runOps_seed W O (GlobalRng.seeded S)
  have hes : ((EntityRng.runOps W OE (EntityRng.seeded S)).2).seed = S :=
    EntityRng.runOpsSeedE W OE (EntityRng.seeded S)
  have hg : GlobalRng.reset (GlobalRng.runOps W O (GlobalRng.seeded S)).2 =
      GlobalRng.seeded S := by
    simp only [GlobalRng.reset]
    rw [hgs]
    rfl
  have he : EntityRng.reset (EntityRng.runOps W OE (EntityRng.seeded S)).2 =
      EntityRng.seeded S := by
    simp only [EntityRng.reset]
    rw [hes]
    rfl
  refine ⟨by rw [hg], by rw [hg]; rfl, by rw [he], by rw [he]; rfl⟩

/-- C7: the crate's `hash_combine` coincides with the Seed-Mixing Function
as the specification describes it: XOR the inputs, multiply by
`0x517c_c1b7_2722_0a95` wrapping modulo 2^64, then XOR the product with
its upper 32 bits shifted down; it is a pure function of its two
arguments. -/
theorem c7_hash_combine_matches_spec_mix (a b : Nat) :
    hash_combine a b = mixSpec a b := by
  simp only [hash_combine, mixSpec, Nat.shiftRight_eq_div_pow]

/-- C8: `choose` and `choose_index` on an empty slice return `none` and
leave the generator completely unchanged — no draw is consumed, so any
subsequent operation behaves exactly as if the empty-slice call had not
happened. -/
theorem c8_choose_empty_no_draw (W : Nat → Nat → Nat) (g : GlobalRng) (op : Op) :
    GlobalRng.choose W g [] = (none, g) ∧
    GlobalRng.choose_index W g [] = (none, g) ∧
    GlobalRng.runOp W op (GlobalRng.choose W g []).2 = GlobalRng.runOp W op g ∧
    GlobalRng.runOp W op (GlobalRng.choose_index W g []).2 = GlobalRng.runOp W op g :=
  ⟨rfl, rfl, rfl, rfl⟩

/-- C9: `chance(p)` always returns `false` for `p ≤ 0` and always returns
`true` for `p ≥ 1`, because the underlying uniform `f64` draw lies in
[0, 1); both generator kinds. -/
theorem c9_chance_boundaries (W : Nat → Nat → Nat) (g : GlobalRng) (e : EntityRng)
    (p : ℚ) :
    (p ≤ 0 → (GlobalRng.chance W g p).1 = false) ∧
    (1 ≤ p → (GlobalRng.chance W g p).1 = true) ∧
    (p ≤ 0 → (EntityRng.chance W e p).1 = false) ∧
    (1 ≤ p → (EntityRng.chance W e p).1 = true) := by
  have hw1 : (stdDraw W g.rng).1 < 2 ^ 64 := Nat.mod_lt _ (by norm_num)
  have hw2 : (stdDraw W e.rng).1 < 2 ^ 64 := Nat.mod_lt _ (by norm_num)
  refine ⟨fun hp => ?_, fun hp => ?_, fun hp => ?_, fun hp => ?_⟩
  · exact decide_eq_false (not_lt.mpr (hp.trans (unitF64_nonneg _)))
  · exact decide_eq_true ((unitF64_lt_one _ hw1).trans_le hp)
  · exact decide_eq_false (not_lt.mpr (hp.trans (unitF64_nonneg _)))
  · exact decide_eq_true ((unitF64_lt_one _ hw2).trans_le hp)

theorem c9_chance_boundaries_witness :
    (GlobalRng.chance wsEx (GlobalRng.seeded 7) 0).1 = false ∧
    (GlobalRng.chance wsEx (GlobalRng.seeded 7) 1).1 = true ∧
    (EntityRng.chance wsEx (EntityRng.seeded 7) 0).1 = false ∧
    (EntityRng.chance wsEx (EntityRng.seeded 7) 1).1 = true :=
  ⟨(c9_chance_boundaries wsEx (GlobalRng.seeded 7) (EntityRng.seeded 7) 0).1 le_rfl,
   (c9_chance_boundaries wsEx (GlobalRng.seeded 7) (EntityRng.seeded 7) 1).2.1 le_rfl,
   (c9_chance_boundaries wsEx (GlobalRng.seeded 7) (EntityRng.seeded 7) 0).2.2.1 le_rfl,
   (c9_chance_boundaries wsEx (GlobalRng.seeded 7) (EntityRng.seeded 7) 1).2.2.2 le_rfl⟩

/-- C10: `hash_combine(a, a) = 0` for every `a`, so
`EntityRng::from_global_and_id(global_seed, entity_index)` assigns
retained seed 0 whenever the global seed equals the entity index widened
to `u64`; all such pairs collapse to the single stream of a generator
seeded with 0. -/
theorem c10_hash_combine_diagonal_collapse (a i j : Nat)
    (hi : i < 2 ^ 32) (hj : j < 2 ^ 32) :
    hash_combine a a = 0 ∧
    (EntityRng.from_global_and_id i i).seed = 0 ∧
    EntityRng.from_global_and_id i i = EntityRng.from_global_and_id j j ∧
    EntityRng.from_global_and_id i i = EntityRng.seeded 0 := by
  have key : ∀ n : Nat, n < 2 ^ 32 →
      EntityRng.from_global_and_id n n = EntityRng.seeded 0 := by
    intro n hn
    unfold EntityRng.from_global_and_id EntityRng.seeded
    rw [Nat.mod_eq_of_lt hn, hash_combine_diag]
  exact ⟨hash_combine_diag a, by rw [key i hi]; rfl, by rw [key i hi, key j hj],
    key i hi⟩

theorem c10_hash_combine_diagonal_collapse_witness :
    hash_combine 5 5 = 0 ∧
    (EntityRng.from_global_and_id 5 5).seed = 0 ∧
    EntityRng.from_global_and_id 5 5 = EntityRng.from_global_and_id 9 9 ∧
    EntityRng.from_global_and_id 5 5 = EntityRng.seeded 0 :=
  c10_hash_combine_diagonal_collapse 5 5 9 (by norm_num) (by norm_num)
